import Mathlib

/-!
Shallow embedding of the session usage-metering and entitlement-gating
logic of `src/app.py` (SuperBrain AI).

The Streamlit session state `st.session_state` becomes an explicit
`SessionState` record; the process-wide configuration
(`FREE_DAILY_LIMIT`, `PREMIUM_ACCESS_CODE`) becomes a `UsagePolicy`
record; the external completion call becomes a `ProviderOutcome` input:
`raised e` when `client.chat.completions.create` itself raises, and
`response ex` when it returns a response object, with `ex` the outcome
of the later extraction `response.choices[0].message.content`
(`Except.ok text`, or `Except.error e` when the extraction raises,
e.g. on a malformed response). Each helper function of the source is
translated one-to-one, keeping the source's statement order.
-/

namespace SuperBrain

/-- Whitespace characters stripped by Python's `str.strip()`
(the ASCII whitespace set). -/
def isPySpace (c : Char) : Bool :=
  c = ' ' || c = '\t' || c = '\n' || c = '\r' || c = '\x0b' || c = '\x0c'

/-- Python's `str.strip()`: remove leading and trailing whitespace. -/
def pyStrip (s : String) : String :=
  String.mk (((s.toList.dropWhile isPySpace).reverse.dropWhile isPySpace).reverse)

/-- Process-wide configuration, loaded once at startup
(`FREE_DAILY_LIMIT`, `PREMIUM_ACCESS_CODE` in `src/app.py`). -/
structure UsagePolicy where
  FREE_DAILY_LIMIT : Nat
  PREMIUM_ACCESS_CODE : String
deriving Repr, DecidableEq

/-- The `ss.analytics` dict of `src/app.py`; `per_mode` is the
mode-to-count dict, embedded as an association list with unique keys. -/
structure Analytics where
  total_requests : Nat
  free_requests : Nat
  premium_requests : Nat
  per_mode : List (String × Nat)
  first_use_at : String
deriving Repr, DecidableEq

/-- The per-session mutable state initialised at the top of `src/app.py`. -/
structure SessionState where
  request_count : Nat
  is_premium : Bool
  chat_history : List (String × String)
  premium_activated_at : Option String
  show_premium_modal : Bool
  analytics : Analytics
deriving Repr, DecidableEq

/-- Analytics as initialised on first use (`first_use_at` is the
current timestamp, passed in as a parameter). -/
def initAnalytics (t : String) : Analytics :=
  { total_requests := 0, free_requests := 0, premium_requests := 0,
    per_mode := [], first_use_at := t }

/-- Session state as initialised on the session's first interaction. -/
def initSession (t : String) : SessionState :=
  { request_count := 0, is_premium := false, chat_history := [],
    premium_activated_at := none, show_premium_modal := false,
    analytics := initAnalytics t }

/-- `per_mode[mode] = per_mode.get(mode, 0) + 1` on the association list. -/
def bumpKey : List (String × Nat) → String → List (String × Nat)
  | [], m => [(m, 1)]
  | (k, v) :: rest, m =>
      if k = m then (k, v + 1) :: rest else (k, v) :: bumpKey rest m

/-- `per_mode.get(k, 0)` on the association list. -/
def getCount : List (String × Nat) → String → Nat
  | [], _ => 0
  | (k, v) :: rest, m => if k = m then v else getCount rest m

/-- Sum of all per-mode counts. -/
def sumCounts (l : List (String × Nat)) : Nat := (l.map Prod.snd).sum

/-- `_bump_analytics(mode)` of `src/app.py`: bump `total_requests` and the
mode's `per_mode` entry, then bump `premium_requests` or `free_requests`
according to the session's current `is_premium`. -/
def _bump_analytics (s : SessionState) (mode : String) : SessionState :=
  let a := s.analytics
  let a2 := { a with total_requests := a.total_requests + 1,
                     per_mode := bumpKey a.per_mode mode }
  if s.is_premium then
    { s with analytics := { a2 with premium_requests := a2.premium_requests + 1 } }
  else
    { s with analytics := { a2 with free_requests := a2.free_requests + 1 } }

/-- `register_request(mode)` of `src/app.py`: increment `request_count`
for non-premium users, then update analytics. -/
def register_request (s : SessionState) (mode : String) : SessionState :=
  let s2 := if s.is_premium then s
            else { s with request_count := s.request_count + 1 }
  _bump_analytics s2 mode

/-- `can_use_ai(mode)` of `src/app.py`. Returns the boolean answer and the
session state after the call (when the answer is false the handler also
sets `show_premium_modal := True`; the `st.warning` display is outside
the state). -/
def can_use_ai (p : UsagePolicy) (s : SessionState) : Bool × SessionState :=
  if s.is_premium then (true, s)
  else if p.FREE_DAILY_LIMIT ≤ s.request_count then
    (false, { s with show_premium_modal := true })
  else (true, s)

/-- The f-string `"❌ Error calling OpenAI API: {e}"` built in the
`except` branch of `call_openai`. -/
def errText (e : String) : String := "❌ Error calling OpenAI API: " ++ e

/-- The outcome of the external call inside `call_openai`'s `try`
block: `raised e` when `client.chat.completions.create` itself raises
`e`; `response ex` when it returns a response object, with `ex` the
outcome of the later extraction `response.choices[0].message.content`
(`Except.error e` when the extraction raises, e.g. on a malformed
response with an empty `choices` list). -/
inductive ProviderOutcome where
  | raised (e : String)
  | response (extraction : Except String String)

/-- `call_openai(system_prompt, user_prompt, mode)` of `src/app.py`.
Returns the function's result (`none` for the quota-refused
`return None`, `some text` otherwise), a boolean recording whether the
provider was invoked, and the session state afterwards. Faithful to the
source's statement order inside `try`: `create` (line 221), then
`register_request` (line 228), then the extraction
`response.choices[0].message.content` (line 229) — so when the
extraction raises, usage has already been registered. -/
def call_openai (p : UsagePolicy) (s : SessionState)
    (provider : ProviderOutcome) (mode : String) :
    Option String × Bool × SessionState :=
  let r := can_use_ai p s
  if r.1 then
    match provider with
    | ProviderOutcome.raised e => (some (errText e), true, r.2)
    | ProviderOutcome.response extraction =>
        let s2 := register_request r.2 mode
        match extraction with
        | Except.ok text => (some text, true, s2)
        | Except.error e => (some (errText e), true, s2)
  else (none, false, r.2)

/-- The boolean condition of the Unlock Premium button handler:
`input_code.strip() and input_code.strip() == PREMIUM_ACCESS_CODE`
(a non-empty string is truthy in Python). -/
def unlockOk (p : UsagePolicy) (input_code : String) : Bool :=
  (pyStrip input_code != "") && (pyStrip input_code == p.PREMIUM_ACCESS_CODE)

/-- The Unlock Premium button handler of `src/app.py` (lines 279-286):
on a matching code set `is_premium := True`, `request_count := 0`,
`premium_activated_at := now`; otherwise only display an error.
Returns whether the unlock succeeded and the session state afterwards. -/
def attemptUnlock (p : UsagePolicy) (s : SessionState)
    (input_code : String) (now : String) : Bool × SessionState :=
  if unlockOk p input_code then
    (true, { s with is_premium := true, request_count := 0,
                    premium_activated_at := some now })
  else (false, s)

/-- "Remaining" as shown in the sidebar: the string `"Unlimited"` for a
premium session, otherwise the integer `max(FREE_DAILY_LIMIT - request_count, 0)`. -/
inductive RemainingVal where
  | unlimited
  | limited (n : Int)
deriving Repr, DecidableEq

/-- The sidebar `remaining` computation of `src/app.py` (lines 263-267). -/
def remaining (p : UsagePolicy) (s : SessionState) : RemainingVal :=
  if s.is_premium then RemainingVal.unlimited
  else RemainingVal.limited
    (max ((p.FREE_DAILY_LIMIT : Int) - (s.request_count : Int)) 0)

/-- One user-triggered Tracker/Gateway operation on a session. -/
inductive Op where
  | canUse
  | register (mode : String)
  | unlock (code : String) (now : String)
  | complete (provider : ProviderOutcome) (mode : String)

/-- The session state after one operation. -/
def step (p : UsagePolicy) (s : SessionState) : Op → SessionState
  | Op.canUse => (can_use_ai p s).2
  | Op.register m => register_request s m
  | Op.unlock c n => (attemptUnlock p s c n).2
  | Op.complete pr m => (call_openai p s pr m).2.2

/-- Whether an operation is a successful premium unlock. -/
def isUnlockSuccess (p : UsagePolicy) : Op → Bool
  | Op.unlock c _ => unlockOk p c
  | _ => false

/-- The analytics consistency invariant: the total equals the
free/premium split and equals the sum of the per-mode counts. -/
def analyticsInv (a : Analytics) : Prop :=
  a.total_requests = a.free_requests + a.premium_requests ∧
  a.total_requests = sumCounts a.per_mode

/-- C4: `can_use_ai` returns true unconditionally for a premium session,
and for a non-premium session returns true iff
`request_count < FREE_DAILY_LIMIT`. -/
theorem can_use_ai_spec (p : UsagePolicy) (s : SessionState) :
    (s.is_premium = true → (can_use_ai p s).1 = true) ∧
    (s.is_premium = false →
      ((can_use_ai p s).1 = true ↔ s.request_count < p.FREE_DAILY_LIMIT)) := by
  constructor
  · intro h
    simp [can_use_ai, h]
  · intro h
    by_cases hc : p.FREE_DAILY_LIMIT ≤ s.request_count
    all_goals simp [can_use_ai, h, hc]
    all_goals omega

/-- Witness for C4: the fresh free session with limit 5 is admitted. -/
theorem can_use_ai_spec_witness :
    (can_use_ai ⟨5, "SECRET"⟩ (initSession "t0")).1 = true :=
  ((can_use_ai_spec ⟨5, "SECRET"⟩ (initSession "t0")).2 rfl).mpr (by decide)

/-- C5: `register_request` increments `request_count` by exactly 1 for a
non-premium session and leaves it unchanged for a premium session. -/
theorem register_request_spec (s : SessionState) (m : String) :
    (s.is_premium = false →
      (register_request s m).request_count = s.request_count + 1) ∧
    (s.is_premium = true →
      (register_request s m).request_count = s.request_count) := by
  refine ⟨fun h => ?_, fun h => ?_⟩ <;>
    simp [register_request, _bump_analytics, h]

/-- Witness for C5: registering on the fresh free session brings the
count from 0 to 1. -/
theorem register_request_spec_witness :
    (register_request (initSession "t0") "General Chat").request_count =
      (initSession "t0").request_count + 1 :=
  (register_request_spec (initSession "t0") "General Chat").1 rfl

/-- C2 (code bug): `call_openai` registers usage (line 228) before
extracting `response.choices[0].message.content` (line 229), so a
malformed response whose extraction raises consumes quota even though
the error string is returned: on a fresh free session the count goes
from 0 to 1. An exception raised by the `create` call itself, by
contrast, leaves the count at 0 — the order in which the General Chat
handler of the same source performs the two steps (extract at line 397,
register at line 398). -/
theorem call_openai_malformed_consumes_quota :
    (call_openai ⟨5, "SECRET"⟩ (initSession "t0")
        (ProviderOutcome.response (Except.error "list index out of range"))
        "m").1 = some (errText "list index out of range") ∧
    (call_openai ⟨5, "SECRET"⟩ (initSession "t0")
        (ProviderOutcome.response (Except.error "list index out of range"))
        "m").2.2.request_count = 1 ∧
    (call_openai ⟨5, "SECRET"⟩ (initSession "t0")
        (ProviderOutcome.raised "connection error")
        "m").2.2.request_count = 0 := by
  refine ⟨rfl, rfl, rfl⟩

/-- C3: a non-premium session at or over the free limit is refused:
`call_openai` returns `None`, never invokes the provider, and leaves
`request_count` and `is_premium` unchanged. -/
theorem quota_exceeded_blocks (p : UsagePolicy) (s : SessionState)
    (provider : ProviderOutcome) (m : String)
    (hfree : s.is_premium = false)
    (hq : p.FREE_DAILY_LIMIT ≤ s.request_count) :
    (call_openai p s provider m).1 = none ∧
    (call_openai p s provider m).2.1 = false ∧
    (call_openai p s provider m).2.2.request_count = s.request_count ∧
    (call_openai p s provider m).2.2.is_premium = s.is_premium := by
  simp [call_openai, can_use_ai, hfree, hq]

/-- Witness for C3, the spec's scenario with `freeLimit = 3`: three
successful `complete` calls bring `request_count` to 3, and the fourth
call is refused without contacting the provider. -/
theorem quota_exceeded_blocks_witness :
    (([Op.complete (ProviderOutcome.response (Except.ok "r1")) "m",
       Op.complete (ProviderOutcome.response (Except.ok "r2")) "m",
       Op.complete (ProviderOutcome.response (Except.ok "r3")) "m"].foldl
        (step ⟨3, "SECRET"⟩) (initSession "t0")).request_count = 3) ∧
    (call_openai ⟨3, "SECRET"⟩
        ([Op.complete (ProviderOutcome.response (Except.ok "r1")) "m",
          Op.complete (ProviderOutcome.response (Except.ok "r2")) "m",
          Op.complete (ProviderOutcome.response (Except.ok "r3")) "m"].foldl
          (step ⟨3, "SECRET"⟩) (initSession "t0"))
        (ProviderOutcome.response (Except.ok "r4")) "m").1 = none ∧
    (call_openai ⟨3, "SECRET"⟩
        ([Op.complete (ProviderOutcome.response (Except.ok "r1")) "m",
          Op.complete (ProviderOutcome.response (Except.ok "r2")) "m",
          Op.complete (ProviderOutcome.response (Except.ok "r3")) "m"].foldl
          (step ⟨3, "SECRET"⟩) (initSession "t0"))
        (ProviderOutcome.response (Except.ok "r4")) "m").2.1 = false := by
  refine ⟨by decide, ?_, ?_⟩
  · exact (quota_exceeded_blocks ⟨3, "SECRET"⟩ _
      (ProviderOutcome.response (Except.ok "r4")) "m"
      (by decide) (by decide)).1
  · exact (quota_exceeded_blocks ⟨3, "SECRET"⟩ _
      (ProviderOutcome.response (Except.ok "r4")) "m"
      (by decide) (by decide)).2.1

/-- C1 counterexample: the handler strips the supplied code before
comparing, so with secret `"ABC123"` the supplied code `" ABC123"`
(leading space) unlocks even though it is not exactly equal to the
secret — the claimed "no normalization of the supplied code" fails. -/
theorem attemptUnlock_no_normalization_false :
    (attemptUnlock ⟨5, "ABC123"⟩ (initSession "t0") " ABC123" "now").1 = true ∧
    " ABC123" ≠ "ABC123" := by
  refine ⟨by decide, by decide⟩

/-- The handler's condition, as a proposition on the stripped code. -/
theorem unlockOk_iff (p : UsagePolicy) (code : String) :
    unlockOk p code = true ↔
      pyStrip code ≠ "" ∧ pyStrip code = p.PREMIUM_ACCESS_CODE := by
  simp [unlockOk]

/-- C1 (amended): `attemptUnlock` returns true and mutates the session
(`is_premium := true`, `request_count := 0`,
`premium_activated_at := now`) iff the whitespace-stripped supplied code
is non-empty and exactly equals `PREMIUM_ACCESS_CODE` (case-sensitive,
no further normalization); otherwise it returns false and leaves the
session unchanged. An empty or whitespace-only supplied code never
matches, even when the configured secret is the empty string. -/
theorem attemptUnlock_spec (p : UsagePolicy) (s : SessionState)
    (code now : String) :
    ((attemptUnlock p s code now).1 = true ↔
      pyStrip code ≠ "" ∧ pyStrip code = p.PREMIUM_ACCESS_CODE) ∧
    ((attemptUnlock p s code now).1 = true →
      (attemptUnlock p s code now).2 =
        { s with is_premium := true, request_count := 0,
                 premium_activated_at := some now }) ∧
    ((attemptUnlock p s code now).1 = false →
      (attemptUnlock p s code now).2 = s) := by
  by_cases h : unlockOk p code
  · have hp := (unlockOk_iff p code).mp h
    simp [attemptUnlock, h, hp]
    exact fun he => hp.1 (hp.2.trans he)
  · have hp : ¬(pyStrip code ≠ "" ∧ pyStrip code = p.PREMIUM_ACCESS_CODE) :=
      fun hc => h ((unlockOk_iff p code).mpr hc)
    simp [attemptUnlock, h, hp]

/-- Witness for C1 (amended), the spec's scenario: with secret
`"ABC123"`, the code `"abc123"` is refused and leaves the session
unchanged, while `"ABC123"` unlocks and resets the counter from 2 to 0. -/
theorem attemptUnlock_spec_witness :
    (attemptUnlock ⟨5, "ABC123"⟩
        { initSession "t0" with request_count := 2 } "abc123" "now").2 =
      { initSession "t0" with request_count := 2 } ∧
    (attemptUnlock ⟨5, "ABC123"⟩
        { initSession "t0" with request_count := 2 } "ABC123" "now").2 =
      { { initSession "t0" with request_count := 2 } with
          is_premium := true, request_count := 0,
          premium_activated_at := some "now" } := by
  constructor
  · exact (attemptUnlock_spec ⟨5, "ABC123"⟩
      { initSession "t0" with request_count := 2 } "abc123" "now").2.2
      (by decide)
  · exact (attemptUnlock_spec ⟨5, "ABC123"⟩
      { initSession "t0" with request_count := 2 } "ABC123" "now").2.1
      (by decide)

/-- C8: the sidebar `remaining` value is `"Unlimited"` for a premium
session; otherwise it is `max(FREE_DAILY_LIMIT - request_count, 0)`,
which is never negative. -/
theorem remaining_spec (p : UsagePolicy) (s : SessionState) :
    (s.is_premium = true → remaining p s = RemainingVal.unlimited) ∧
    (s.is_premium = false →
      remaining p s = RemainingVal.limited
        (max ((p.FREE_DAILY_LIMIT : Int) - (s.request_count : Int)) 0) ∧
      ∀ n, remaining p s = RemainingVal.limited n → 0 ≤ n) := by
  refine ⟨fun h => ?_, fun h => ⟨?_, fun n hn => ?_⟩⟩
  · simp [remaining, h]
  · simp [remaining, h]
  · simp [remaining, h] at hn
    omega

/-- Witness for C8: a free session with the count (7) over the limit (5)
still shows a non-negative remaining value, namely 0. -/
theorem remaining_spec_witness :
    remaining ⟨5, "SECRET"⟩ { initSession "t0" with request_count := 7 } =
      RemainingVal.limited (max ((5 : Int) - (7 : Int)) 0) ∧
    (0 : Int) ≤ max ((5 : Int) - (7 : Int)) 0 := by
  constructor
  · exact ((remaining_spec ⟨5, "SECRET"⟩
      { initSession "t0" with request_count := 7 }).2 rfl).1
  · exact le_max_right _ _

/-- C9: at `call_openai`'s interface a failure is not distinguishable
from a success by the result's type: when admission succeeds, an
exception — whether raised by the completion call itself or while
extracting a malformed response — is returned as a non-`None` string
(the error text) on the same `Option String` channel as a successful
completion's text, and `None` is returned only when admission
(`can_use_ai`) fails. -/
theorem provider_error_same_channel (p : UsagePolicy) (s : SessionState)
    (e t m : String) (outcome : ProviderOutcome) :
    ((call_openai p s outcome m).1 = none → (can_use_ai p s).1 = false) ∧
    ((can_use_ai p s).1 = true →
      (call_openai p s (ProviderOutcome.raised e) m).1 = some (errText e) ∧
      (call_openai p s (ProviderOutcome.response (Except.error e)) m).1 =
        some (errText e) ∧
      (call_openai p s (ProviderOutcome.response (Except.ok t)) m).1 =
        some t) := by
  refine ⟨fun h => ?_, fun h => ?_⟩
  · by_cases hb : (can_use_ai p s).1
    · cases outcome with
      | raised e2 => simp [call_openai, hb] at h
      | response ex => cases ex <;> simp [call_openai, hb] at h
    · simpa using hb
  · simp [call_openai, h]

/-- Witness for C9: on a fresh free session with limit 5, a raised
exception `"boom"` and a malformed-response extraction failure both
come back as `some "❌ Error calling OpenAI API: boom"`, on the same
channel as the successful `some "hello"`. -/
theorem provider_error_same_channel_witness :
    (call_openai ⟨5, "SECRET"⟩ (initSession "t0")
        (ProviderOutcome.raised "boom") "m").1 = some (errText "boom") ∧
    (call_openai ⟨5, "SECRET"⟩ (initSession "t0")
        (ProviderOutcome.response (Except.error "boom")) "m").1 =
      some (errText "boom") ∧
    (call_openai ⟨5, "SECRET"⟩ (initSession "t0")
        (ProviderOutcome.response (Except.ok "hello")) "m").1 =
      some "hello" :=
  (provider_error_same_channel ⟨5, "SECRET"⟩ (initSession "t0")
    "boom" "hello" "m"
    (ProviderOutcome.response (Except.ok "hello"))).2 (by decide)

/-- `can_use_ai` never changes `request_count` or `is_premium`. -/
theorem can_use_ai_frame (p : UsagePolicy) (s : SessionState) :
    (can_use_ai p s).2.request_count = s.request_count ∧
    (can_use_ai p s).2.is_premium = s.is_premium ∧
    (can_use_ai p s).2.analytics = s.analytics := by
  by_cases h : s.is_premium <;>
    by_cases hc : p.FREE_DAILY_LIMIT ≤ s.request_count <;>
      simp [can_use_ai, h, hc]

/-- `register_request` never decreases `request_count` and never
changes `is_premium`. -/
theorem register_request_frame (s : SessionState) (m : String) :
    s.request_count ≤ (register_request s m).request_count ∧
    (register_request s m).is_premium = s.is_premium := by
  by_cases h : s.is_premium <;> simp [register_request, _bump_analytics, h]

/-- C6: across any single Tracker/Gateway operation, `request_count`
never decreases unless the operation is a successful `attemptUnlock`,
and a successful `attemptUnlock` resets it to 0. -/
theorem request_count_monotone (p : UsagePolicy) (s : SessionState)
    (op : Op) :
    (s.request_count ≤ (step p s op).request_count ∨
      isUnlockSuccess p op = true) ∧
    (isUnlockSuccess p op = true → (step p s op).request_count = 0) := by
  cases op with
  | canUse =>
      exact ⟨Or.inl (le_of_eq (can_use_ai_frame p s).1.symm),
        fun h => by simp [isUnlockSuccess] at h⟩
  | register m =>
      exact ⟨Or.inl (register_request_frame s m).1,
        fun h => by simp [isUnlockSuccess] at h⟩
  | unlock c n =>
      by_cases h : unlockOk p c
      · exact ⟨Or.inr (by simp [isUnlockSuccess, h]),
          fun _ => by simp [step, attemptUnlock, h]⟩
      · refine ⟨Or.inl ?_, fun hs => ?_⟩
        · simp [step, attemptUnlock, h]
        · simp [isUnlockSuccess, h] at hs
  | complete pr m =>
      refine ⟨Or.inl ?_, fun h => by simp [isUnlockSuccess] at h⟩
      show s.request_count ≤ (call_openai p s pr m).2.2.request_count
      by_cases hb : (can_use_ai p s).1
      · cases pr with
        | raised e =>
            simp only [call_openai, hb, if_true]
            exact le_of_eq (can_use_ai_frame p s).1.symm
        | response ex =>
            have h1 := (can_use_ai_frame p s).1
            have h2 := (register_request_frame (can_use_ai p s).2 m).1
            cases ex <;> simp only [call_openai, hb, if_true] <;> omega
      · simp only [call_openai, hb, if_false]
        exact le_of_eq (can_use_ai_frame p s).1.symm

/-- Witness for C6: a successful unlock on a session with count 4
resets the counter to 0. -/
theorem request_count_monotone_witness :
    (step ⟨5, "SECRET"⟩ { initSession "t0" with request_count := 4 }
        (Op.unlock "SECRET" "now")).request_count = 0 :=
  (request_count_monotone ⟨5, "SECRET"⟩
    { initSession "t0" with request_count := 4 }
    (Op.unlock "SECRET" "now")).2 (by decide)

/-- A single operation keeps a premium session premium, and keeps its
counter at 0 when it was 0. -/
theorem step_premium (p : UsagePolicy) (s : SessionState) (op : Op)
    (h : s.is_premium = true) :
    (step p s op).is_premium = true ∧
    (s.request_count = 0 → (step p s op).request_count = 0) := by
  cases op with
  | canUse => simp [step, can_use_ai, h]
  | register m => simp [step, register_request, _bump_analytics, h]
  | unlock c n =>
      by_cases hu : unlockOk p c <;> simp [step, attemptUnlock, hu, h]
  | complete pr m =>
      cases pr with
      | raised e =>
          simp [step, call_openai, can_use_ai, h]
      | response ex =>
          cases ex <;>
            simp [step, call_openai, can_use_ai, h, register_request,
              _bump_analytics]

/-- C7: a premium session never returns to the free state under any
sequence of operations, and when its counter is 0 (as it is right after
a successful unlock) every subsequent operation — in particular every
successful `complete` call — leaves the counter at 0. -/
theorem premium_absorbing (p : UsagePolicy) (s : SessionState)
    (ops : List Op) (h : s.is_premium = true) :
    (ops.foldl (step p) s).is_premium = true ∧
    (s.request_count = 0 → (ops.foldl (step p) s).request_count = 0) := by
  induction ops generalizing s with
  | nil => exact ⟨h, fun h0 => h0⟩
  | cons op rest ih =>
      have hs := step_premium p s op h
      have hr := ih (step p s op) hs.1
      exact ⟨hr.1, fun h0 => hr.2 (hs.2 h0)⟩

/-- Witness for C7, the spec's scenario: after a successful unlock,
ten successful `complete` calls leave `is_premium` true and
`request_count` at 0. -/
theorem premium_absorbing_witness :
    ((List.replicate 10 (Op.complete (ProviderOutcome.response (Except.ok "r")) "m")).foldl
        (step ⟨5, "ABC123"⟩)
        (attemptUnlock ⟨5, "ABC123"⟩
          { initSession "t0" with request_count := 4 } "ABC123" "now").2
      ).is_premium = true ∧
    ((List.replicate 10 (Op.complete (ProviderOutcome.response (Except.ok "r")) "m")).foldl
        (step ⟨5, "ABC123"⟩)
        (attemptUnlock ⟨5, "ABC123"⟩
          { initSession "t0" with request_count := 4 } "ABC123" "now").2
      ).request_count = 0 := by
  have h := premium_absorbing ⟨5, "ABC123"⟩
    (attemptUnlock ⟨5, "ABC123"⟩
      { initSession "t0" with request_count := 4 } "ABC123" "now").2
    (List.replicate 10 (Op.complete (ProviderOutcome.response (Except.ok "r")) "m")) (by decide)
  exact ⟨h.1, h.2 (by decide)⟩

/-- Bumping a mode raises the sum of all per-mode counts by exactly 1. -/
theorem sumCounts_bumpKey (l : List (String × Nat)) (m : String) :
    sumCounts (bumpKey l m) = sumCounts l + 1 := by
  induction l with
  | nil => simp [bumpKey, sumCounts]
  | cons kv rest ih =>
      obtain ⟨k, v⟩ := kv
      by_cases h : k = m <;> simp [bumpKey, sumCounts, h] <;>
        simp [sumCounts] at ih <;> omega

/-- Bumping a mode raises that mode's count by exactly 1. -/
theorem getCount_bumpKey_self (l : List (String × Nat)) (m : String) :
    getCount (bumpKey l m) m = getCount l m + 1 := by
  induction l with
  | nil => simp [bumpKey, getCount]
  | cons kv rest ih =>
      obtain ⟨k, v⟩ := kv
      by_cases h : k = m <;> simp [bumpKey, getCount, h, ih]

/-- Bumping a mode never lowers any per-mode count. -/
theorem getCount_bumpKey_le (l : List (String × Nat)) (m k : String) :
    getCount l k ≤ getCount (bumpKey l m) k := by
  induction l with
  | nil => simp [bumpKey, getCount]
  | cons kv rest ih =>
      obtain ⟨a, v⟩ := kv
      simp only [bumpKey, getCount]
      by_cases ha : a = m
      · rw [if_pos ha]
        simp only [getCount]
        by_cases hk : a = k
        · rw [if_pos hk, if_pos hk]
          omega
        · rw [if_neg hk, if_neg hk]
      · rw [if_neg ha]
        simp only [getCount]
        by_cases hk : a = k
        · rw [if_pos hk, if_pos hk]
        · rw [if_neg hk, if_neg hk]
          exact ih

/-- How `register_request` changes the analytics record. -/
theorem register_request_analytics (s : SessionState) (m : String) :
    (register_request s m).analytics.total_requests =
      s.analytics.total_requests + 1 ∧
    (register_request s m).analytics.per_mode =
      bumpKey s.analytics.per_mode m ∧
    (s.is_premium = true →
      (register_request s m).analytics.premium_requests =
        s.analytics.premium_requests + 1 ∧
      (register_request s m).analytics.free_requests =
        s.analytics.free_requests) ∧
    (s.is_premium = false →
      (register_request s m).analytics.free_requests =
        s.analytics.free_requests + 1 ∧
      (register_request s m).analytics.premium_requests =
        s.analytics.premium_requests) := by
  by_cases h : s.is_premium <;> simp [register_request, _bump_analytics, h]

/-- When `can_use_ai` answers true it leaves the session unchanged. -/
theorem can_use_ai_true_state (p : UsagePolicy) (s : SessionState)
    (h : (can_use_ai p s).1 = true) : (can_use_ai p s).2 = s := by
  by_cases hp : s.is_premium
  · simp [can_use_ai, hp]
  · by_cases hc : p.FREE_DAILY_LIMIT ≤ s.request_count
    · simp [can_use_ai, hp, hc] at h
    · simp [can_use_ai, hp, hc]

/-- A single `register_request` preserves the analytics invariant and
never lowers any analytics counter. -/
theorem register_request_inv (s : SessionState) (m : String) :
    (analyticsInv s.analytics →
      analyticsInv (register_request s m).analytics) ∧
    s.analytics.total_requests ≤
      (register_request s m).analytics.total_requests ∧
    s.analytics.free_requests ≤
      (register_request s m).analytics.free_requests ∧
    s.analytics.premium_requests ≤
      (register_request s m).analytics.premium_requests ∧
    ∀ k, getCount s.analytics.per_mode k ≤
      getCount (register_request s m).analytics.per_mode k := by
  obtain ⟨ht, hpm, hp, hf⟩ := register_request_analytics s m
  by_cases h : s.is_premium
  · obtain ⟨h1, h2⟩ := hp h
    refine ⟨fun hinv => ?_, ?_, ?_, ?_, fun k => ?_⟩
    · obtain ⟨hi1, hi2⟩ := hinv
      refine ⟨by omega, ?_⟩
      rw [ht, hpm, sumCounts_bumpKey]
      omega
    · omega
    · omega
    · omega
    · rw [hpm]
      exact getCount_bumpKey_le _ m k
  · obtain ⟨h1, h2⟩ := hf (by simpa using h)
    refine ⟨fun hinv => ?_, ?_, ?_, ?_, fun k => ?_⟩
    · obtain ⟨hi1, hi2⟩ := hinv
      refine ⟨by omega, ?_⟩
      rw [ht, hpm, sumCounts_bumpKey]
      omega
    · omega
    · omega
    · omega
    · rw [hpm]
      exact getCount_bumpKey_le _ m k

/-- A single operation preserves the analytics invariant and never
lowers any analytics counter. -/
theorem step_analytics (p : UsagePolicy) (s : SessionState) (op : Op) :
    (analyticsInv s.analytics → analyticsInv (step p s op).analytics) ∧
    s.analytics.total_requests ≤ (step p s op).analytics.total_requests ∧
    s.analytics.free_requests ≤ (step p s op).analytics.free_requests ∧
    s.analytics.premium_requests ≤
      (step p s op).analytics.premium_requests ∧
    ∀ k, getCount s.analytics.per_mode k ≤
      getCount (step p s op).analytics.per_mode k := by
  cases op with
  | canUse =>
      have h : (step p s Op.canUse).analytics = s.analytics :=
        (can_use_ai_frame p s).2.2
      rw [h]
      exact ⟨fun hinv => hinv, le_refl _, le_refl _, le_refl _,
        fun k => le_refl _⟩
  | register m => exact register_request_inv s m
  | unlock c n =>
      have h : (step p s (Op.unlock c n)).analytics = s.analytics := by
        by_cases hu : unlockOk p c <;> simp [step, attemptUnlock, hu]
      rw [h]
      exact ⟨fun hinv => hinv, le_refl _, le_refl _, le_refl _,
        fun k => le_refl _⟩
  | complete pr m =>
      by_cases hb : (can_use_ai p s).1
      · have hst := can_use_ai_true_state p s hb
        cases pr with
        | raised e =>
            have h : (step p s
                (Op.complete (ProviderOutcome.raised e) m)).analytics =
                s.analytics := by
              simp [step, call_openai, hb, hst]
            rw [h]
            exact ⟨fun hinv => hinv, le_refl _, le_refl _, le_refl _,
              fun k => le_refl _⟩
        | response ex =>
            have h : step p s
                (Op.complete (ProviderOutcome.response ex) m) =
                register_request s m := by
              cases ex <;> simp [step, call_openai, hb, hst]
            rw [h]
            exact register_request_inv s m
      · have h : (step p s (Op.complete pr m)).analytics = s.analytics := by
          simp only [step, call_openai]
          rw [if_neg hb]
          exact (can_use_ai_frame p s).2.2
        rw [h]
        exact ⟨fun hinv => hinv, le_refl _, le_refl _, le_refl _,
          fun k => le_refl _⟩

/-- The analytics invariant holds after any sequence of operations from
an invariant-satisfying state. -/
theorem foldl_analyticsInv (p : UsagePolicy) (ops : List Op)
    (s : SessionState) (h : analyticsInv s.analytics) :
    analyticsInv ((ops.foldl (step p) s).analytics) := by
  induction ops generalizing s with
  | nil => exact h
  | cons op rest ih => exact ih _ ((step_analytics p s op).1 h)

/-- C10: after every sequence of operations from a fresh session the
analytics satisfy `total_requests = free_requests + premium_requests =
sum of the per_mode counts`; each operation preserves the invariant and
never lowers any analytics counter; and `register_request` bumps
`total_requests`, exactly one of `free_requests`/`premium_requests`
(chosen by the session's current `is_premium`), and the mode's
`per_mode` entry exactly once — even for premium sessions, whose
`request_count` stays put. -/
theorem analytics_consistency (p : UsagePolicy) (ops : List Op)
    (s : SessionState) (op : Op) (m t : String) :
    analyticsInv ((ops.foldl (step p) (initSession t)).analytics) ∧
    (analyticsInv s.analytics → analyticsInv (step p s op).analytics) ∧
    s.analytics.total_requests ≤ (step p s op).analytics.total_requests ∧
    s.analytics.free_requests ≤ (step p s op).analytics.free_requests ∧
    s.analytics.premium_requests ≤
      (step p s op).analytics.premium_requests ∧
    (∀ k, getCount s.analytics.per_mode k ≤
      getCount (step p s op).analytics.per_mode k) ∧
    (register_request s m).analytics.total_requests =
      s.analytics.total_requests + 1 ∧
    (s.is_premium = true →
      (register_request s m).analytics.premium_requests =
        s.analytics.premium_requests + 1 ∧
      (register_request s m).analytics.free_requests =
        s.analytics.free_requests ∧
      (register_request s m).request_count = s.request_count) ∧
    (s.is_premium = false →
      (register_request s m).analytics.free_requests =
        s.analytics.free_requests + 1 ∧
      (register_request s m).analytics.premium_requests =
        s.analytics.premium_requests) ∧
    getCount (register_request s m).analytics.per_mode m =
      getCount s.analytics.per_mode m + 1 := by
  obtain ⟨h1, h2, h3, h4, h5⟩ := step_analytics p s op
  obtain ⟨ht, hpm, hp, hf⟩ := register_request_analytics s m
  refine ⟨foldl_analyticsInv p ops (initSession t) ⟨rfl, rfl⟩,
    h1, h2, h3, h4, h5, ht, fun h => ?_, hf, ?_⟩
  · exact ⟨(hp h).1, (hp h).2, (register_request_spec s m).2 h⟩
  · rw [hpm]
    exact getCount_bumpKey_self _ m

/-- Witness for C10: one registered request on the fresh free session
yields `total = 1 = free + premium = sum of per_mode`, with the free
counter and the mode's entry each bumped once; and on a premium session
registration bumps `premium_requests` while `request_count` stays 0. -/
theorem analytics_consistency_witness :
    analyticsInv ((step ⟨5, "S"⟩ (initSession "t0")
      (Op.register "General Chat")).analytics) ∧
    (register_request (initSession "t0") "General Chat").analytics.free_requests =
      (initSession "t0").analytics.free_requests + 1 ∧
    (register_request { initSession "t0" with is_premium := true }
        "m").analytics.premium_requests =
      { initSession "t0" with is_premium := true }.analytics.premium_requests + 1 ∧
    (register_request { initSession "t0" with is_premium := true }
        "m").request_count =
      { initSession "t0" with is_premium := true }.request_count := by
  obtain ⟨-, hinv, -, -, -, -, -, -, hfree, -⟩ :=
    analytics_consistency ⟨5, "S"⟩ [] (initSession "t0")
      (Op.register "General Chat") "General Chat" "t0"
  obtain ⟨-, -, -, -, -, -, -, hprem, -, -⟩ :=
    analytics_consistency ⟨5, "S"⟩ []
      { initSession "t0" with is_premium := true }
      (Op.register "m") "m" "t0"
  exact ⟨hinv ⟨rfl, rfl⟩, (hfree rfl).1, (hprem rfl).1, (hprem rfl).2.2⟩

end SuperBrain
